import Mathlib

/-!
# Verification of the Card Sizing Estimator (`src/image_generator.py`)

Shallow embedding of the content-driven image-sizing heuristic of the
repository's `ImageGenerator` class, together with the request-building and
error-handling skeleton of `ImageGenerator.generate`.

Modelling conventions:
* A Python `str` is modelled as `List Char` (a sequence of code points,
  matching Python's character-based semantics for `len`, `split`, `strip`,
  `startswith`).
* Python `float` arithmetic is modelled by exact rationals `ℚ`;
  Python `int(x)` (truncation toward zero) is `pyInt`.
* A Python `dict` is modelled as a function `String → Option PyVal`
  (Python dicts are finite maps; only lookups matter to the claims).
-/

/-- Python's `str.split('\n')`: splits on every separator occurrence and keeps
empty pieces; `''.split('\n') == ['']`. -/
def pySplit : List Char → List Char → List (List Char)
  | [], acc => [acc.reverse]
  | c :: cs, acc =>
    if c = '\n' then acc.reverse :: pySplit cs []
    else pySplit cs (c :: acc)

/-- The lines of a content string, as in the source's `content.split('\n')`. -/
def pyLines (content : List Char) : List (List Char) :=
  pySplit content []

/-- Whitespace for `str.strip()` (the ASCII whitespace characters; the inputs
of this program contain no exotic Unicode spacing). -/
def pyIsSpace (c : Char) : Bool :=
  c = ' ' || c = '\t' || c = '\n' || c = '\r' || c = '\x0b' || c = '\x0c'

/-- Python's `str.strip()`: drop leading and trailing whitespace. -/
def pyStrip (l : List Char) : List Char :=
  ((l.dropWhile pyIsSpace).reverse.dropWhile pyIsSpace).reverse

/-- Python's `str.startswith(pat)`. -/
def pyStartsWith : List Char → List Char → Bool
  | _, [] => true
  | [], _ :: _ => false
  | c :: cs, p :: ps => c = p && pyStartsWith cs ps

/-- Python's `int(x)` on a float: truncation toward zero. -/
def pyInt (q : ℚ) : ℤ :=
  if 0 ≤ q then q.floor else q.ceil

/-- The `ContentAnalysis` dataclass.  The Python `headings` dict with the three
fixed keys `"#"`, `"##"`, `"###"` is flattened into three fields. -/
structure ContentAnalysis where
  total_lines : ℕ
  content_lines : ℕ
  headings_h1 : ℕ
  headings_h2 : ℕ
  headings_h3 : ℕ
  list_items : ℕ
  categories : ℕ
  max_line_length : ℕ
  total_chars : ℕ
  complexity : String
  deriving Repr, DecidableEq

/-- The loop body of `ImageGenerator._analyze_content`: process one raw line. -/
def analyzeStep (a : ContentAnalysis) (line : List Char) : ContentAnalysis :=
  let stripped := pyStrip line
  if stripped.isEmpty then a
  else
    let a := { a with
      content_lines := a.content_lines + 1
      total_chars := a.total_chars + stripped.length
      max_line_length := max a.max_line_length stripped.length }
    if pyStartsWith stripped ('#' :: [' ']) then
      { a with headings_h1 := a.headings_h1 + 1 }
    else if pyStartsWith stripped ('#' :: '#' :: [' ']) then
      { a with headings_h2 := a.headings_h2 + 1 }
    else if pyStartsWith stripped ('#' :: '#' :: '#' :: [' ']) then
      { a with headings_h3 := a.headings_h3 + 1, categories := a.categories + 1 }
    else if pyStartsWith stripped ('-' :: [' ']) || pyStartsWith stripped ('*' :: [' ']) then
      { a with list_items := a.list_items + 1 }
    else a

/-- The complexity thresholds at the end of `_analyze_content`. -/
def complexityOfCount (n : ℕ) : String :=
  if n < 12 then "simple"
  else if n < 22 then "standard"
  else if n < 38 then "detailed"
  else "complete"

/-- `ImageGenerator._analyze_content`. -/
def analyzeContent (content : List Char) : ContentAnalysis :=
  let lines := pyLines content
  let init : ContentAnalysis :=
    { total_lines := lines.length, content_lines := 0
      headings_h1 := 0, headings_h2 := 0, headings_h3 := 0
      list_items := 0, categories := 0
      max_line_length := 0, total_chars := 0, complexity := "simple" }
  let a := lines.foldl analyzeStep init
  { a with complexity := complexityOfCount a.content_lines }

/-- One entry of the tier lookup table in `_get_optimal_config`. -/
structure TierConfig where
  width : ℤ
  padding : ℤ
  fontScale : ℚ
  base_height : ℤ
  line_height : ℤ
  deriving Repr, DecidableEq

/-- The `configs` table of `_get_optimal_config`, including the
`configs.get(complexity, configs["standard"])` fallback to `standard`. -/
def configs (complexity : String) : TierConfig :=
  if complexity = "simple" then
    { width := 500, padding := 16, fontScale := 1, base_height := 150, line_height := 30 }
  else if complexity = "detailed" then
    { width := 620, padding := 20, fontScale := 11/10, base_height := 200, line_height := 34 }
  else if complexity = "complete" then
    { width := 680, padding := 22, fontScale := 23/20, base_height := 220, line_height := 36 }
  else
    { width := 560, padding := 18, fontScale := 21/20, base_height := 180, line_height := 32 }

/-- Result of `ImageGenerator._get_optimal_config`. -/
structure OptConfig where
  width : ℤ
  padding : ℤ
  fontScale : ℚ
  base_height : ℤ
  line_height : ℤ
  complexity : String
  deriving Repr, DecidableEq

/-- `ImageGenerator._get_optimal_config` (constants: `AVG_CHAR_WIDTH = 16`,
`MAX_WIDTH = 720`, `PADDING_RATIO = 0.08`). -/
def getOptimalConfig (a : ContentAnalysis) : OptConfig :=
  let base := configs a.complexity
  let min_width_for_content : ℤ := (a.max_line_length : ℤ) * 16
  let adjusted_width := min (max base.width min_width_for_content) 720
  let adjusted_padding := max 14 (min (pyInt ((adjusted_width : ℚ) * (8/100))) 28)
  { width := adjusted_width, padding := adjusted_padding
    fontScale := base.fontScale, base_height := base.base_height
    line_height := base.line_height, complexity := a.complexity }

/-- The configuration chosen by `_calculate_dimensions` for a content string. -/
def optOf (content : List Char) : OptConfig :=
  getOptimalConfig (analyzeContent content)

/-- `content_width = width - 2 * padding` in `_calculate_dimensions`. -/
def contentWidth (content : List Char) : ℤ :=
  (optOf content).width - 2 * (optOf content).padding

/-- The per-line contribution to `estimated_lines` in `_calculate_dimensions`
(`AVG_CHAR_WIDTH = 16`; blank line `0.5`, `# ` heading `3.0`, `## ` `2.5`,
`### ` `2.0`, list item `max(1.5, len*16*1.5/cw)`, `**` bold
`max(1.5, len*16*1.3/cw)`, plain `max(1.3, len*16*1.3/cw)`). -/
def lineContribution (cw : ℤ) (line : List Char) : ℚ :=
  let stripped := pyStrip line
  if stripped.isEmpty then 1/2
  else
    let text_len : ℚ := (stripped.length : ℚ)
    if pyStartsWith stripped ('#' :: [' ']) then 3
    else if pyStartsWith stripped ('#' :: '#' :: [' ']) then 5/2
    else if pyStartsWith stripped ('#' :: '#' :: '#' :: [' ']) then 2
    else if pyStartsWith stripped ('-' :: [' ']) || pyStartsWith stripped ('*' :: [' ']) then
      max (3/2) (text_len * 16 * (3/2) / (cw : ℚ))
    else if pyStartsWith stripped ('*' :: ['*']) then
      max (3/2) (text_len * 16 * (13/10) / (cw : ℚ))
    else
      max (13/10) (text_len * 16 * (13/10) / (cw : ℚ))

/-- The `estimated_lines` accumulation loop of `_calculate_dimensions`. -/
def estimatedLines (content : List Char) : ℚ :=
  (pyLines content).foldl (fun acc line => acc + lineContribution (contentWidth content) line) 0

/-- `total_height` before clamping: `base_height + int(estimated_lines *
line_height * 1.2)`. -/
def rawHeight (content : List Char) : ℤ :=
  (optOf content).base_height
    + pyInt (estimatedLines content * ((optOf content).line_height : ℚ) * (12/10))

/-- The final clamped height: `max(MIN_HEIGHT, min(total_height, MAX_HEIGHT))`
with `MIN_HEIGHT = 600`, `MAX_HEIGHT = 3000`. -/
def totalHeight (content : List Char) : ℤ :=
  max 600 (min (rawHeight content) 3000)

/-- The width returned by `_calculate_dimensions`. -/
def widthOf (content : List Char) : ℤ :=
  (optOf content).width

/-- The aspect-ratio bucket chain at the end of `_calculate_dimensions`,
applied to `ratio_wh = width / total_height`. -/
def ratioOf (content : List Char) : String :=
  let ratio_wh : ℚ := (widthOf content : ℚ) / (totalHeight content : ℚ)
  if ratio_wh > 17/20 then "1:1"
  else if ratio_wh > 7/10 then "3:4"
  else if ratio_wh > 1/2 then "2:3"
  else if ratio_wh > 2/5 then "9:16"
  else "9:19"

/-- `ImageGenerator._calculate_dimensions`: `(width, height, ratio, config)`. -/
def calculateDimensions (content : List Char) : ℤ × ℤ × String × OptConfig :=
  (widthOf content, totalHeight content, ratioOf content, optOf content)

/-- A JSON-serialisable Python value, as far as the request payload needs. -/
inductive PyVal where
  | str (s : List Char)
  | int (n : ℤ)
  | rat (q : ℚ)
  | bool (b : Bool)
  | dict (entries : List (String × PyVal))
  deriving Repr

/-- A Python dict, as the finite map it denotes. -/
def PyDict := String → Option PyVal

/-- `d[k] = v` on a dict. -/
def dictSet (d : PyDict) (k : String) (v : PyVal) : PyDict :=
  fun k' => if k' = k then some v else d k'

/-- `d.update(other)` where `other` is given by its (insertion-ordered,
duplicate-free in Python) item list: later items win. -/
def dictUpdate (d : PyDict) (items : List (String × PyVal)) : PyDict :=
  items.foldl (fun d kv => dictSet d kv.1 kv.2) d

/-- A dict built from scratch out of an item list. -/
def dictOfItems (items : List (String × PyVal)) : PyDict :=
  dictUpdate (fun _ => none) items

/-- `FIREFLY_DEFAULT_CONFIG` from `src/config.py` (copied into
`self.default_config` by `ImageGenerator.__init__`). -/
def fireflyDefaultConfig : PyDict :=
  dictOfItems
    [("font", .str "SourceHanSerifCN_Bold".data),
     ("align", .str "left".data),
     ("width", .int 400),
     ("height", .int 533),
     ("fontScale", .rat (12/10)),
     ("ratio", .str "3:4".data),
     ("padding", .int 30),
     ("switchConfig", .dict
        [("showIcon", .bool false), ("showTitle", .bool false),
         ("showContent", .bool true), ("showTranslation", .bool false),
         ("showAuthor", .bool false), ("showQRCode", .bool false),
         ("showSignature", .bool false), ("showQuotes", .bool false),
         ("showWatermark", .bool false)]),
     ("temp", .str "tempBlackSun".data),
     ("fonts", .dict
        [("title", .rat (2.1329337874720125 : ℚ)),
         ("content", .rat (1.9079435748084854 : ℚ)),
         ("translate", .rat (1.1415042034904328 : ℚ)),
         ("author", .rat (0.801229782035275 : ℚ))]),
     ("textColor", .str "rgba(0,0,0,0.8)".data),
     ("subTempId", .str "tempBlackSun".data),
     ("borderRadius", .int 15),
     ("color", .str "pure-ray-1".data),
     ("useFont", .str "SourceHanSerifCN_Bold".data),
     ("useLoadingFont", .bool true)]

/-- The request payload built by `ImageGenerator.generate` (lines 291-307):
copy of the default config, then the five computed layout keys, then
`request_data.update(custom_config)`, then `request_data["content"]` last. -/
def buildRequest (markdown_content : List Char) (custom_config : List (String × PyVal)) :
    PyDict :=
  let d := fireflyDefaultConfig
  let d := dictSet d "width" (.int (widthOf markdown_content))
  let d := dictSet d "height" (.int (totalHeight markdown_content))
  let d := dictSet d "ratio" (.str (ratioOf markdown_content).data)
  let d := dictSet d "padding" (.int (optOf markdown_content).padding)
  let d := dictSet d "fontScale" (.rat (optOf markdown_content).fontScale)
  let d := dictUpdate d custom_config
  dictSet d "content" (.str markdown_content)

/-- The pre-network phase of `ImageGenerator.generate`: `none` means the
function returns `None` without issuing any HTTP request; `some payload`
means exactly one HTTP POST with that payload is issued. -/
def generateRequest (enabled : Bool) (markdown_content : List Char)
    (custom_config : List (String × PyVal)) : Option PyDict :=
  if !enabled then none
  else if markdown_content.isEmpty || (pyStrip markdown_content).isEmpty then none
  else some (buildRequest markdown_content custom_config)

/-- Spec-side weight of one source line, written from the specification's
estimator description: blank `0.5`; `H1 3.0, H2 2.5, H3 2.0`; list item
`max(1.5, len × 16 × 1.5 / content_width)`; bold line
`max(1.5, len × 16 × 1.3 / content_width)`; plain text
`max(1.3, len × 16 × 1.3 / content_width)`. -/
def specLineWeight (content_width : ℤ) (line : List Char) : ℚ :=
  let stripped := pyStrip line
  if stripped.isEmpty then 1/2
  else if pyStartsWith stripped ('#' :: [' ']) then 3
  else if pyStartsWith stripped ('#' :: '#' :: [' ']) then 5/2
  else if pyStartsWith stripped ('#' :: '#' :: '#' :: [' ']) then 2
  else if pyStartsWith stripped ('-' :: [' ']) || pyStartsWith stripped ('*' :: [' ']) then
    max (3/2) ((stripped.length : ℚ) * 16 * (3/2) / (content_width : ℚ))
  else if pyStartsWith stripped ('*' :: ['*']) then
    max (3/2) ((stripped.length : ℚ) * 16 * (13/10) / (content_width : ℚ))
  else
    max (13/10) ((stripped.length : ℚ) * 16 * (13/10) / (content_width : ℚ))

/-- Spec-side estimated rendered line count: the sum of the per-line weights
over all lines. -/
def specRenderedLineSum (content_width : ℤ) (lines : List (List Char)) : ℚ :=
  (lines.map (specLineWeight content_width)).sum

/-- Spec-side final height: the tier's `base_height` plus the rendered-line
sum multiplied by the tier's `line_height` and the `1.2` safety margin
(truncated to an integer as the code's `int(...)` does), clamped to
`[MIN_HEIGHT, MAX_HEIGHT] = [600, 3000]`. -/
def specHeight (content : List Char) : ℤ :=
  let opt := getOptimalConfig (analyzeContent content)
  let content_width := opt.width - 2 * opt.padding
  max 600 (min
    (opt.base_height +
      pyInt (specRenderedLineSum content_width (pyLines content) * (opt.line_height : ℚ) * (12/10)))
    3000)

/-- Spec-side aspect-ratio bucket on `width/height`:
`>0.85 → 1:1`, `>0.7 → 3:4`, `>0.5 → 2:3`, `>0.4 → 9:16`, else `9:19`. -/
def specRatioBucket (r : ℚ) : String :=
  if r > 17/20 then "1:1"
  else if r > 7/10 then "3:4"
  else if r > 1/2 then "2:3"
  else if r > 2/5 then "9:16"
  else "9:19"

/-- Position of a tier in the `simple → standard → detailed → complete`
progression, to state monotonicity of the complexity classifier. -/
def tierIdx (tier : String) : ℕ :=
  if tier = "simple" then 0
  else if tier = "standard" then 1
  else if tier = "detailed" then 2
  else 3

/-- The last value bound to key `k` in a dict item list (what survives a
`dict.update` of that list), if any. -/
def lastBinding : List (String × PyVal) → String → Option PyVal
  | [], _ => none
  | kv :: rest, k =>
    match lastBinding rest k with
    | some v => some v
    | none => if kv.1 = k then some kv.2 else none

/-- The concrete text of the spec's worked scenario: five plain lines of ten
characters each. -/
def fivePlainLines : List Char :=
  "aaaaaaaaaa\naaaaaaaaaa\naaaaaaaaaa\naaaaaaaaaa\naaaaaaaaaa".data

/-- The bookkeeping update `_analyze_content` applies to every non-blank line
(count it, add its length, refresh the running maximum), before any
marker-specific counter is touched. -/
def contentBumped (a : ContentAnalysis) (stripped : List Char) : ContentAnalysis :=
  { a with content_lines := a.content_lines + 1
           total_chars := a.total_chars + stripped.length
           max_line_length := max a.max_line_length stripped.length }

/-- What the response of `result = response.json()` can hold, as far as the
extraction code of `generate` inspects it. -/
inductive JsonShape where
  /-- `result["data"]` is a string starting with `"http"`: returned as URL. -/
  | dataHttpUrl (url : List Char)
  /-- `result["data"]` is some other string (base64, possibly a data URI);
  `valid` records whether `base64.b64decode` succeeds on it. -/
  | dataB64 (s : List Char) (valid : Bool)
  /-- no usable `"data"`, but `result["imageUrl"]` exists. -/
  | imageUrl (url : List Char)
  /-- no usable `"data"` or `"imageUrl"`, but `result["url"]` exists. -/
  | urlField (url : List Char)
  /-- none of the recognised keys is present. -/
  | unrecognized
  deriving Repr, DecidableEq

/-- The observable outcome of the one `requests.post` call and of the file
writes that follow, i.e. every way the `try` body of `generate` can go. -/
inductive HttpOutcome where
  /-- `requests.post` raises a `RequestException` (timeout, connection error). -/
  | transportError
  /-- `response.raise_for_status()` raises `HTTPError` on a non-2xx status. -/
  | badStatus
  /-- Content-Type is `image/*`; `writeOk` records whether saving the bytes
  to disk succeeds (a failed write raises `OSError`). -/
  | imageBody (writeOk : Bool)
  /-- Content-Type is not an image and `response.json()` raises. -/
  | notJson
  /-- Content-Type is not an image and `response.json()` yields `shape`. -/
  | jsonBody (shape : JsonShape) (writeOk : Bool)
  deriving Repr, DecidableEq

/-- The `try` body of `generate` from `requests.post` on: `Except.error e`
means a Python exception `e` is raised inside the `try`; `Except.ok r` means
the body runs to completion returning `r` (`savedPath` stands for the
concrete output path the image bytes were written to). -/
def tryBody (outcome : HttpOutcome) (savedPath : List Char) :
    Except String (Option (List Char)) :=
  match outcome with
  | .transportError => .error "requests.exceptions.RequestException"
  | .badStatus => .error "requests.exceptions.HTTPError"
  | .imageBody writeOk =>
    if writeOk then .ok (some savedPath) else .error "OSError"
  | .notJson => .error "requests.exceptions.JSONDecodeError"
  | .jsonBody shape writeOk =>
    match shape with
    | .dataHttpUrl url => .ok (some url)
    | .dataB64 _ valid =>
      if !valid then .error "binascii.Error"
      else if writeOk then .ok (some savedPath) else .error "OSError"
    | .imageUrl url => .ok (some url)
    | .urlField url => .ok (some url)
    | .unrecognized => .ok none

/-- `ImageGenerator.generate` end to end: the pre-network short circuits,
then the `try` body with its two `except` handlers, both of which swallow
the exception and return `None`. -/
def generate (enabled : Bool) (markdown_content : List Char)
    (custom_config : List (String × PyVal)) (outcome : HttpOutcome)
    (savedPath : List Char) : Option (List Char) :=
  match generateRequest enabled markdown_content custom_config with
  | none => none
  | some _ =>
    match tryBody outcome savedPath with
    | .error _ => none
    | .ok r => r

/-! ## Helper lemmas -/

theorem foldl_add_map {α : Type} (f : α → ℚ) (l : List α) (acc : ℚ) :
    l.foldl (fun a x => a + f x) acc = acc + (l.map f).sum := by
  induction l generalizing acc with
  | nil => simp
  | cons x xs ih => simp [ih, add_assoc]

theorem configs_width_ge (s : String) : 500 ≤ (configs s).width := by
  unfold configs; split_ifs <;> simp

theorem configs_width_le (s : String) : (configs s).width ≤ 680 := by
  unfold configs; split_ifs <;> simp

theorem analyzeStep_content_lines (a : ContentAnalysis) (l : List Char) :
    (analyzeStep a l).content_lines =
      if (pyStrip l).isEmpty then a.content_lines else a.content_lines + 1 := by
  unfold analyzeStep
  by_cases h : (pyStrip l).isEmpty <;> simp [h] <;> split_ifs <;> rfl

theorem foldl_content_lines (lines : List (List Char)) (a : ContentAnalysis) :
    (lines.foldl analyzeStep a).content_lines =
      a.content_lines + (lines.filter (fun l => !(pyStrip l).isEmpty)).length := by
  induction lines generalizing a with
  | nil => simp
  | cons l ls ih =>
    rw [List.foldl_cons, ih, analyzeStep_content_lines]
    by_cases h : (pyStrip l).isEmpty <;> simp [h] <;> omega

theorem analyzeContent_content_lines (c : List Char) :
    (analyzeContent c).content_lines =
      ((pyLines c).filter (fun l => !(pyStrip l).isEmpty)).length := by
  unfold analyzeContent
  simp [foldl_content_lines]

theorem analyzeContent_complexity (c : List Char) :
    (analyzeContent c).complexity = complexityOfCount (analyzeContent c).content_lines := by
  unfold analyzeContent
  simp

theorem tierIdx_mono (n m : ℕ) (h : n ≤ m) :
    tierIdx (complexityOfCount n) ≤ tierIdx (complexityOfCount m) := by
  unfold complexityOfCount
  split_ifs <;> first | omega | decide

theorem optOf_width_eq (c : List Char) :
    widthOf c = min (max (configs (analyzeContent c).complexity).width
      (((analyzeContent c).max_line_length : ℤ) * 16)) 720 := by
  rfl

theorem width_ge_500 (c : List Char) : 500 ≤ widthOf c := by
  rw [optOf_width_eq]
  have h1 := configs_width_ge (analyzeContent c).complexity
  have h2 := configs_width_le (analyzeContent c).complexity
  have h3 : (configs (analyzeContent c).complexity).width ≤
      max (configs (analyzeContent c).complexity).width
        (((analyzeContent c).max_line_length : ℤ) * 16) := le_max_left _ _
  omega

theorem pyInt_padding_ge_40 (c : List Char) :
    40 ≤ pyInt ((widthOf c : ℚ) * (8/100)) := by
  have hw : 500 ≤ widthOf c := width_ge_500 c
  have hq : (40 : ℚ) ≤ (widthOf c : ℚ) * (8/100) := by
    have h5 : (500 : ℚ) ≤ (widthOf c : ℚ) := by exact_mod_cast hw
    linarith
  have hnn : (0 : ℚ) ≤ (widthOf c : ℚ) * (8/100) := by linarith
  unfold pyInt
  rw [if_pos hnn]
  exact Rat.le_floor.mpr (by exact_mod_cast hq)

theorem padding_eq_28 (c : List Char) : (optOf c).padding = 28 := by
  have hfl := pyInt_padding_ge_40 c
  show max 14 (min (pyInt ((widthOf c : ℚ) * (8/100))) 28) = 28
  omega

theorem lineWeight_eq (cw : ℤ) (l : List Char) :
    lineContribution cw l = specLineWeight cw l := rfl

theorem estimatedLines_eq (c : List Char) :
    estimatedLines c = specRenderedLineSum (contentWidth c) (pyLines c) := by
  unfold estimatedLines specRenderedLineSum
  rw [foldl_add_map, zero_add]
  rfl

theorem pyStartsWith_ne_nil (s : List Char) (p : Char) (ps : List Char)
    (h : pyStartsWith s (p :: ps) = true) : s.isEmpty = false := by
  cases s with
  | nil => simp [pyStartsWith] at h
  | cons c cs => rfl

theorem analyzeStep_blank (a : ContentAnalysis) (l : List Char)
    (h : (pyStrip l).isEmpty = true) : analyzeStep a l = a := by
  unfold analyzeStep
  simp [h]

theorem analyzeStep_h1 (a : ContentAnalysis) (l : List Char)
    (h : pyStartsWith (pyStrip l) ('#' :: [' ']) = true) :
    analyzeStep a l =
      { contentBumped a (pyStrip l) with headings_h1 := a.headings_h1 + 1 } := by
  have hne := pyStartsWith_ne_nil _ _ _ h
  unfold analyzeStep
  simp [hne, h, contentBumped]

theorem analyzeStep_h2 (a : ContentAnalysis) (l : List Char)
    (h1 : pyStartsWith (pyStrip l) ('#' :: [' ']) = false)
    (h2 : pyStartsWith (pyStrip l) ('#' :: '#' :: [' ']) = true) :
    analyzeStep a l =
      { contentBumped a (pyStrip l) with headings_h2 := a.headings_h2 + 1 } := by
  have hne := pyStartsWith_ne_nil _ _ _ h2
  unfold analyzeStep
  simp [hne, h1, h2, contentBumped]

theorem analyzeStep_h3 (a : ContentAnalysis) (l : List Char)
    (h1 : pyStartsWith (pyStrip l) ('#' :: [' ']) = false)
    (h2 : pyStartsWith (pyStrip l) ('#' :: '#' :: [' ']) = false)
    (h3 : pyStartsWith (pyStrip l) ('#' :: '#' :: '#' :: [' ']) = true) :
    analyzeStep a l =
      { contentBumped a (pyStrip l) with
        headings_h3 := a.headings_h3 + 1, categories := a.categories + 1 } := by
  have hne := pyStartsWith_ne_nil _ _ _ h3
  unfold analyzeStep
  simp [hne, h1, h2, h3, contentBumped]

theorem analyzeStep_list (a : ContentAnalysis) (l : List Char)
    (h1 : pyStartsWith (pyStrip l) ('#' :: [' ']) = false)
    (h2 : pyStartsWith (pyStrip l) ('#' :: '#' :: [' ']) = false)
    (h3 : pyStartsWith (pyStrip l) ('#' :: '#' :: '#' :: [' ']) = false)
    (h4 : (pyStartsWith (pyStrip l) ('-' :: [' '])
           || pyStartsWith (pyStrip l) ('*' :: [' '])) = true) :
    analyzeStep a l =
      { contentBumped a (pyStrip l) with list_items := a.list_items + 1 } := by
  have hne : (pyStrip l).isEmpty = false := by
    have h4' : pyStartsWith (pyStrip l) ('-' :: [' ']) = true ∨
        pyStartsWith (pyStrip l) ('*' :: [' ']) = true := by simpa using h4
    rcases h4' with h | h
    · exact pyStartsWith_ne_nil _ _ _ h
    · exact pyStartsWith_ne_nil _ _ _ h
  unfold analyzeStep
  simp [hne, h1, h2, h3, h4, contentBumped]

theorem analyzeStep_bold (a : ContentAnalysis) (l : List Char)
    (h : pyStartsWith (pyStrip l) ('*' :: ['*']) = true) :
    analyzeStep a l = contentBumped a (pyStrip l) := by
  rcases hps : pyStrip l with _ | ⟨c, _ | ⟨c2, t⟩⟩ <;> rw [hps] at h
  · simp [pyStartsWith] at h
  · simp [pyStartsWith] at h
  · simp [pyStartsWith] at h
    obtain ⟨rfl, rfl⟩ := h
    unfold analyzeStep
    rw [hps]
    simp [pyStartsWith, contentBumped]

theorem dictUpdate_apply (items : List (String × PyVal)) (d : PyDict) (k : String) :
    dictUpdate d items k =
      match lastBinding items k with
      | some v => some v
      | none => d k := by
  induction items generalizing d with
  | nil => rfl
  | cons kv rest ih =>
    show dictUpdate (dictSet d kv.1 kv.2) rest k = _
    rw [ih]
    cases hlb : lastBinding rest k with
    | some v => simp [lastBinding, hlb]
    | none =>
      by_cases hk : kv.1 = k
      · simp [lastBinding, hlb, hk, dictSet]
      · have hk' : ¬ k = kv.1 := fun h => hk h.symm
        simp [lastBinding, hlb, hk, hk', dictSet]

theorem contentWidth_fivePlainLines : contentWidth fivePlainLines = 444 := by
  unfold contentWidth
  rw [padding_eq_28, show (optOf fivePlainLines).width = 500 from by decide]
  decide

theorem lineContribution_tenChars :
    lineContribution 444 ['a','a','a','a','a','a','a','a','a','a'] = 13/10 := by
  have h1 : ((10:ℚ) * 16 * (13/10) / 444) ≤ 13/10 := by norm_num
  simp [lineContribution, pyStrip, pyIsSpace, pyStartsWith, max_eq_left h1]

theorem estimatedLines_fivePlainLines : estimatedLines fivePlainLines = 13/2 := by
  unfold estimatedLines
  rw [contentWidth_fivePlainLines, show pyLines fivePlainLines =
    List.replicate 5 ("aaaaaaaaaa".data) from by decide]
  simp [List.foldl, show ("aaaaaaaaaa".data) = List.replicate 10 'a' from by decide,
    lineContribution_tenChars]
  norm_num

theorem rawHeight_fivePlainLines : rawHeight fivePlainLines = 150 + 234 := by
  unfold rawHeight
  rw [estimatedLines_fivePlainLines,
      show (optOf fivePlainLines).base_height = 150 from by decide,
      show (optOf fivePlainLines).line_height = 30 from by decide]
  norm_num [pyInt]
  decide

/-! ## Claim theorems -/

/-- C1: for every input text, the estimated height lies in
`[MIN_HEIGHT, MAX_HEIGHT] = [600, 3000]` and the estimated width lies in
`[tier_base_width, MAX_WIDTH] = [(configs tier).width, 720]`, hence also
`width ≥ MIN_WIDTH = 480`, regardless of input text length. -/
theorem spec_c1_dimension_bounds (c : List Char) :
    600 ≤ totalHeight c ∧ totalHeight c ≤ 3000 ∧
    (configs (analyzeContent c).complexity).width ≤ widthOf c ∧
    widthOf c ≤ 720 ∧ 480 ≤ widthOf c := by
  refine ⟨le_max_left _ _, max_le (by norm_num) (min_le_right _ _), ?_, ?_, ?_⟩
  · rw [optOf_width_eq]
    exact le_min (le_max_left _ _) (le_trans (configs_width_le _) (by norm_num))
  · rw [optOf_width_eq]; exact min_le_right _ _
  · have := width_ge_500 c; omega

/-- C2: the complexity tier is a pure function of the non-blank line count
(`complexityOfCount` applied to the number of lines whose strip is nonempty),
it is monotone along the `simple → standard → detailed → complete` order, and
the thresholds are exactly `<12 / <22 / <38` with boundary values belonging to
the higher tier (12 is `standard`, 22 is `detailed`, 38 is `complete`). -/
theorem spec_c2_complexity_tier (c : List Char) (n : ℕ) :
    (analyzeContent c).complexity = complexityOfCount (analyzeContent c).content_lines ∧
    (analyzeContent c).content_lines =
      ((pyLines c).filter (fun l => !(pyStrip l).isEmpty)).length ∧
    tierIdx (complexityOfCount n) ≤ tierIdx (complexityOfCount (n + 1)) ∧
    complexityOfCount 11 = "simple" ∧ complexityOfCount 12 = "standard" ∧
    complexityOfCount 21 = "standard" ∧ complexityOfCount 22 = "detailed" ∧
    complexityOfCount 37 = "detailed" ∧ complexityOfCount 38 = "complete" :=
  ⟨analyzeContent_complexity c, analyzeContent_content_lines c,
   tierIdx_mono n (n + 1) (Nat.le_succ n),
   by decide, by decide, by decide, by decide, by decide, by decide⟩

/-- C3: the code's final height (sum of the per-line weights `0.5` blank,
`3.0` H1, `2.5` H2, `2.0` H3, `max(1.5, len·16·1.5/cw)` list,
`max(1.5, len·16·1.3/cw)` bold, `max(1.3, len·16·1.3/cw)` plain, with
`cw = width − 2·padding`, times `line_height` and the `1.2` margin, truncated,
plus `base_height`, clamped) coincides with the specification-side formula
`specHeight` built from those very words. -/
theorem spec_c3_height_formula (c : List Char) : totalHeight c = specHeight c := by
  unfold totalHeight rawHeight specHeight
  rw [estimatedLines_eq]
  rfl

/-- C4 counterexample: the claim says the Content Analyzer classifies bold
lines as a structural kind of their own and increments a corresponding
counter, but `ContentAnalysis` has no bold counter at all: the analysis of a
text consisting of one bold line is identical, field by field, to the
analysis of a plain line of the same length, so no output of the analyzer
distinguishes them. -/
theorem spec_c4_counterexample :
    analyzeContent "**bold line**".data = analyzeContent "plain line!!!".data := by
  decide

/-- C4 amended: the analyzer classifies each non-blank line by its leading
marker with first-match-wins precedence in the order H1 (`# `), H2 (`## `),
H3 (`### `), list (`- ` or `* `), incrementing the corresponding counter;
lines matching none of these markers — in particular `**`-prefixed bold
lines — increment no structural counter and receive exactly the same
treatment as plain text (bold is distinguished only by the dimension
estimator, not by the analyzer). -/
theorem spec_c4_amended (a : ContentAnalysis) (l : List Char) :
    ((pyStrip l).isEmpty = true → analyzeStep a l = a) ∧
    (pyStartsWith (pyStrip l) ('#' :: [' ']) = true →
      analyzeStep a l =
        { contentBumped a (pyStrip l) with headings_h1 := a.headings_h1 + 1 }) ∧
    (pyStartsWith (pyStrip l) ('#' :: [' ']) = false →
     pyStartsWith (pyStrip l) ('#' :: '#' :: [' ']) = true →
      analyzeStep a l =
        { contentBumped a (pyStrip l) with headings_h2 := a.headings_h2 + 1 }) ∧
    (pyStartsWith (pyStrip l) ('#' :: [' ']) = false →
     pyStartsWith (pyStrip l) ('#' :: '#' :: [' ']) = false →
     pyStartsWith (pyStrip l) ('#' :: '#' :: '#' :: [' ']) = true →
      analyzeStep a l =
        { contentBumped a (pyStrip l) with
          headings_h3 := a.headings_h3 + 1, categories := a.categories + 1 }) ∧
    (pyStartsWith (pyStrip l) ('#' :: [' ']) = false →
     pyStartsWith (pyStrip l) ('#' :: '#' :: [' ']) = false →
     pyStartsWith (pyStrip l) ('#' :: '#' :: '#' :: [' ']) = false →
     (pyStartsWith (pyStrip l) ('-' :: [' '])
       || pyStartsWith (pyStrip l) ('*' :: [' '])) = true →
      analyzeStep a l =
        { contentBumped a (pyStrip l) with list_items := a.list_items + 1 }) ∧
    (pyStartsWith (pyStrip l) ('*' :: ['*']) = true →
      analyzeStep a l = contentBumped a (pyStrip l)) :=
  ⟨analyzeStep_blank a l, analyzeStep_h1 a l, analyzeStep_h2 a l,
   analyzeStep_h3 a l, analyzeStep_list a l, analyzeStep_bold a l⟩

/-- C4 witness: the amended theorem applied to a concrete bold line. -/
theorem spec_c4_witness :
    analyzeStep (analyzeContent []) "**x**".data =
      contentBumped (analyzeContent []) (pyStrip "**x**".data) :=
  (spec_c4_amended (analyzeContent []) "**x**".data).2.2.2.2.2 (by decide)

/-- C5 counterexample: the claim says every key present in the override
mapping ends up in the final request with the override's value, but the code
assigns `request_data["content"] = markdown_content` after the
`update(custom_config)` merge, so an override of the `content` key does not
survive: with content `"hello"` and override `{"content": "zzz"}` the final
payload's `content` is `"hello"`, not `"zzz"`. -/
theorem spec_c5_counterexample :
    ¬ (buildRequest "hello".data [("content", PyVal.str "zzz".data)] "content"
        = some (PyVal.str "zzz".data)) := by
  intro h
  injection h with h1
  injection h1 with h2
  exact absurd h2 (by decide)

/-- C5 amended: every key present in the override mapping other than
`content` appears in the final request payload with exactly the override's
(last-bound) value, winning over both the default payload and the computed
dimensions; the `content` key alone is overwritten afterwards with the raw
markdown string. In particular `{"height": 900}` makes the final height
exactly 900, bypassing estimation. -/
theorem spec_c5_amended (content : List Char) (custom : List (String × PyVal))
    (k : String) (v : PyVal) (hk : k ≠ "content")
    (hv : lastBinding custom k = some v) :
    buildRequest content custom k = some v := by
  show dictSet (dictUpdate _ custom) "content" (.str content) k = some v
  unfold dictSet
  rw [if_neg hk, dictUpdate_apply, hv]

/-- C5 witness: the amended theorem at the claim's own example, an override
`{"height": 900}`, which does make the final request's height exactly 900. -/
theorem spec_c5_witness :
    buildRequest "hi".data [("height", PyVal.int 900)] "height"
      = some (PyVal.int 900) :=
  spec_c5_amended "hi".data [("height", PyVal.int 900)] "height" (PyVal.int 900)
    (by decide) rfl

/-- C6: the aspect ratio returned by `_calculate_dimensions` is exactly the
fixed bucket function of `width / height`: `>0.85 → "1:1"`, `>0.7 → "3:4"`,
`>0.5 → "2:3"`, `>0.4 → "9:16"`, else `"9:19"`. -/
theorem spec_c6_ratio_buckets (c : List Char) :
    ratioOf c = specRatioBucket ((widthOf c : ℚ) / (totalHeight c : ℚ)) := rfl

/-- C7: for every markdown content that strips to the empty string (empty or
whitespace-only), `generate` issues no network request (`generateRequest`
yields `none`) and returns `None`; the same short circuit happens whenever
image generation is disabled by configuration (`enabled = false`). -/
theorem spec_c7_short_circuit (enabled : Bool) (content : List Char)
    (custom : List (String × PyVal)) (outcome : HttpOutcome) (path : List Char) :
    ((pyStrip content).isEmpty = true →
      generateRequest enabled content custom = none ∧
      generate enabled content custom outcome path = none) ∧
    (generateRequest false content custom = none ∧
      generate false content custom outcome path = none) := by
  constructor
  · intro h
    have hreq : generateRequest enabled content custom = none := by
      unfold generateRequest
      cases enabled <;> simp [h]
    exact ⟨hreq, by unfold generate; rw [hreq]⟩
  · have hreq : generateRequest false content custom = none := rfl
    exact ⟨hreq, by unfold generate; rw [hreq]⟩

/-- C7 witness: the theorem at a whitespace-only content string. -/
theorem spec_c7_witness :
    (pyStrip "   ".data).isEmpty = true ∧
    generateRequest true "   ".data [] = none ∧
    generate true "   ".data [] .transportError [] = none :=
  ⟨by decide,
   ((spec_c7_short_circuit true "   ".data [] .transportError []).1 (by decide)).1,
   ((spec_c7_short_circuit true "   ".data [] .transportError []).1 (by decide)).2⟩

/-- C8: for every input to `generate` (any markdown content, override mapping,
response outcome and output path), every Python exception raised inside the
`try` body — transport failures, bad HTTP status, JSON decode errors, invalid
base64, failed file writes — is caught and turned into a `None` return, and
an unrecognised response shape likewise yields `None`: no exception escapes
to the caller. -/
theorem spec_c8_no_escape (enabled : Bool) (content : List Char)
    (custom : List (String × PyVal)) (outcome : HttpOutcome) (path : List Char) :
    ((∃ e, tryBody outcome path = Except.error e) →
      generate enabled content custom outcome path = none) ∧
    (∀ w : Bool, generate enabled content custom (.jsonBody .unrecognized w) path = none) := by
  constructor
  · rintro ⟨e, he⟩
    unfold generate
    cases hreq : generateRequest enabled content custom with
    | none => rfl
    | some _ => rw [he]
  · intro w
    unfold generate
    cases hreq : generateRequest enabled content custom with
    | none => rfl
    | some _ => rfl

/-- C8 witness: the theorem at a concrete transport failure. -/
theorem spec_c8_witness :
    (∃ e, tryBody .transportError [] = Except.error e) ∧
    generate true "hi".data [] .transportError [] = none :=
  ⟨⟨"requests.exceptions.RequestException", rfl⟩,
   (spec_c8_no_escape true "hi".data [] .transportError []).1
     ⟨"requests.exceptions.RequestException", rfl⟩⟩

/-- C9: on the concrete input of five plain lines of ten characters each, the
tier is `simple` (5 non-blank lines), the width stays at the tier base 500,
the raw height is `base_height 150 + int(6.5 × 30 × 1.2) = 150 + 234 = 384`,
and the final height is clamped up to `MIN_HEIGHT = 600`. -/
theorem spec_c9_concrete_scenario :
    (analyzeContent fivePlainLines).complexity = "simple" ∧
    (analyzeContent fivePlainLines).content_lines = 5 ∧
    widthOf fivePlainLines = 500 ∧
    estimatedLines fivePlainLines = 13/2 ∧
    rawHeight fivePlainLines = 150 + 234 ∧
    totalHeight fivePlainLines = 600 := by
  refine ⟨by decide, by decide, by decide, estimatedLines_fivePlainLines,
    rawHeight_fivePlainLines, ?_⟩
  unfold totalHeight
  rw [rawHeight_fivePlainLines]
  decide

/-- C10: for every input text the padding resolved by `_get_optimal_config`
is exactly 28: the adjusted width is at least 500, so `int(width × 0.08)` is
at least 40 and the clamp to `[14, 28]` always returns its upper bound. -/
theorem spec_c10_padding_always_28 (c : List Char) :
    (optOf c).padding = 28 ∧ 40 ≤ pyInt ((widthOf c : ℚ) * (8/100)) :=
  ⟨padding_eq_28 c, pyInt_padding_ge_40 c⟩
